import Mathlib

/-!
Verification of the trivia-frontend repository
(`src/trivia_frontend/src/App.js`, `src/trivia_frontend/src/api/client.js`,
`src/trivia_frontend/src/api/triviaApi.js`).

The JavaScript source is shallowly embedded: plain JSON values become an
inductive `Json` type (numbers are modelled as integers — no claim touches
fractional values), JS runtime errors thrown by the fetch wrapper become a
`JsErr` record, and the React component's state updates become explicit
state-passing functions.  Host primitives that are not repository code
(`fetch`, `JSON.parse`) are abstracted as parameters / an abstract `Body`
classification of the response text.
-/

/-- A JSON value as manipulated by the app.  JS numbers are modelled as
integers: every number the app produces or inspects is an integer
(scores, indices, counts, HTTP statuses). -/
inductive Json where
  | null
  | bool (b : Bool)
  | num (n : Int)
  | str (s : String)
  | arr (elems : List Json)
  | obj (fields : List (String × Json))

/-- JS falsiness restricted to the modelled values: `null`, `false`, `0`
and `""` are falsy, everything else (objects and arrays included) truthy. -/
def jsFalsy : Json → Bool
  | .null => true
  | .bool b => !b
  | .num n => n == 0
  | .str s => s == ""
  | .arr _ => false
  | .obj _ => false

/-- `!!v` in JS. -/
def jsTruthy (v : Json) : Bool := !jsFalsy v

/-- Property access `o.k`: defined only on objects (first binding wins),
`none` models JS `undefined`. -/
def jsGet (v : Json) (k : String) : Option Json :=
  match v with
  | .obj fields => (fields.find? (fun p => p.1 == k)).map (·.2)
  | _ => none

/-- Strip a JS `null` so that `Option.orElse` models the nullish-coalescing
operator `??` (which skips both `undefined` and `null`). -/
def nv (o : Option Json) : Option Json :=
  match o with
  | some .null => none
  | x => x

mutual

/-- JS `String(v)` for the modelled values (used by `Array.prototype.join`).
`String` of an array joins the stringified elements with `,`; `String` of a
plain object is `"[object Object]"`. -/
def jsToString : Json → String
  | .null => "null"
  | .bool b => cond b "true" "false"
  | .num n => toString n
  | .str s => s
  | .arr elems => String.intercalate "," (jsToStringList elems)
  | .obj _ => "[object Object]"

def jsToStringList : List Json → List String
  | [] => []
  | x :: xs => jsToString x :: jsToStringList xs

end

/-- The error object thrown by `apiRequest` / the fetch layer: an optional
HTTP status (`e?.status`, absent for transport errors) and a message
(`String(e?.message || "")` — a missing message is the empty string). -/
structure JsErr where
  status : Option Int
  message : String
deriving Repr, DecidableEq

/-- `charsStartWith pat s` — `pat` is a prefix of `s` (on char lists). -/
def charsStartWith : List Char → List Char → Bool
  | [], _ => true
  | _ :: _, [] => false
  | a :: as, b :: bs => a == b && charsStartWith as bs

/-- `charsContain pat s` — `pat` occurs contiguously somewhere in `s`. -/
def charsContain (pat : List Char) : List Char → Bool
  | [] => charsStartWith pat []
  | b :: bs => charsStartWith pat (b :: bs) || charsContain pat bs

/-- Case-insensitive substring test, the effect of `/pat/i.test(msg)` for the
three literal patterns used in `App.js` (`Failed to fetch`, `NetworkError`,
`CORS`). -/
def containsIC (msg pat : String) : Bool :=
  charsContain (pat.data.map Char.toLower) (msg.data.map Char.toLower)

/-- `looksLikeMissingEndpoint` from `tryBackendOrMock` (App.js lines 104-111):
status 404 or 405, or a message matching one of the network/CORS patterns. -/
def looksLikeMissingEndpoint (e : JsErr) : Bool :=
  e.status == some 404 ||
  e.status == some 405 ||
  containsIC e.message "Failed to fetch" ||
  containsIC e.message "NetworkError" ||
  containsIC e.message "CORS"

/-- `tryBackendOrMock(fn, mockFn)` (App.js lines 99-120), with the awaited
outcome of `fn()` passed in as `backend`.  Returns the surfaced outcome
together with whether `setUsingMockBackend(true)` ran (mock-mode
activation).  A classified error is swallowed and the mock result is
returned; any other error is re-thrown unchanged. -/
def tryBackendOrMock {α : Type} (backend : Except JsErr α) (mock : α) :
    Except JsErr α × Bool :=
  match backend with
  | .ok v => (.ok v, false)
  | .error e =>
    if looksLikeMissingEndpoint e then (.ok mock, true) else (.error e, false)

/-- One record of the `MOCK_QUESTIONS` list. -/
structure MockQ where
  id : String
  prompt : String
  choices : List String
  correctIndex : Nat
  explanation : String
deriving Repr, DecidableEq, Inhabited

/-- The fixed 3-question mock list (App.js lines 26-48). -/
def MOCK_QUESTIONS : List MockQ :=
  [ { id := "q1"
    , prompt := "In classic arcade cabinets, what does CRT stand for?"
    , choices := ["Cathode-Ray Tube", "Core Runtime", "Color Render Technique",
                  "Circuit Relay Trigger"]
    , correctIndex := 0
    , explanation := "CRT stands for Cathode-Ray Tube, used in older displays." }
  , { id := "q2"
    , prompt := "Which color is often associated with 'neon' cyberpunk accents?"
    , choices := ["Beige", "Neon Cyan", "Olive", "Brown"]
    , correctIndex := 1
    , explanation := "Neon cyan (and magenta) are iconic cyberpunk palette accents." }
  , { id := "q3"
    , prompt := "What input did many early arcade games rely on most?"
    , choices := ["Touchscreen", "Mouse", "Joystick + buttons", "Voice commands"]
    , correctIndex := 2
    , explanation := "Joystick + buttons were the standard controls in arcades." }
  ]

/-- `clamp(n, min, max) = Math.max(min, Math.min(max, n))` (App.js 50-52). -/
def clamp (n lo hi : Int) : Int := max lo (min hi n)

/-- Return shape of `mockGetQuestion`. -/
structure MockQuestionView where
  id : String
  prompt : String
  choices : List String
  total_questions : Nat
  question_number : Int
deriving Repr, DecidableEq

/-- `mockGetQuestion(currentNumber)` (App.js 135-139).  `currentNumber || 1`
replaces the (falsy) number 0 by 1; the position is clamped into the valid
index range.  The clamped index is within the list, so the `getD` default
is never taken. -/
def mockGetQuestion (currentNumber : Int) : MockQuestionView :=
  let m : Int := if currentNumber == 0 then 1 else currentNumber
  let idx : Int := clamp (m - 1) 0 (MOCK_QUESTIONS.length - 1)
  let q := MOCK_QUESTIONS.getD idx.toNat default
  { id := q.id, prompt := q.prompt, choices := q.choices
  , total_questions := MOCK_QUESTIONS.length
  , question_number := idx + 1 }

/-- Return shape of `mockSubmitAnswer`. -/
structure MockAnswerResult where
  correct : Bool
  correctIndex : Nat
  explanation : String
  score : Nat
  questionNumber : Nat
  totalQuestions : Nat
  gameOver : Bool
deriving Repr, DecidableEq

/-- `mockSubmitAnswer(questionId, selectedIdx)` (App.js 141-157).  The
component state it reads (`score`, `questionNumber`) is passed explicitly.
The question is looked up by id, falling back to the first mock question;
the game-over flag compares the pre-submission question number with the
list length using `>=`. -/
def mockSubmitAnswer (score questionNumber : Nat) (questionId : String)
    (selectedIdx : Nat) : MockAnswerResult :=
  let q := (MOCK_QUESTIONS.find? (fun x => x.id == questionId)).getD
    (MOCK_QUESTIONS.getD 0 default)
  let correct := selectedIdx == q.correctIndex
  let newScore := score + (if correct then 1 else 0)
  let isLast := MOCK_QUESTIONS.length ≤ questionNumber
  { correct := correct
  , correctIndex := q.correctIndex
  , explanation := q.explanation
  , score := newScore
  , questionNumber := questionNumber
  , totalQuestions := MOCK_QUESTIONS.length
  , gameOver := isLast }


/-- The previous component state read by the normalization in
`handleSelectAnswer` (`score`, `questionNumber`, `totalQuestions`).  The
React state slots hold whatever JSON value a response put there, so they
are modelled as `Json`. -/
structure PrevProgress where
  score : Json
  questionNumber : Json
  totalQuestions : Json

/-- The normalized answer record built in `handleSelectAnswer`
(App.js 216-224). -/
structure NormResult where
  correct : Bool
  correctIndex : Json
  explanation : Json
  score : Json
  questionNumber : Json
  totalQuestions : Json
  gameOver : Bool

/-- `!!x` applied to the result of a nullish-coalescing chain (`none`
models `undefined`). -/
def jsBoolOf (o : Option Json) : Bool :=
  match o with
  | none => false
  | some v => jsTruthy v

/-- The tolerant field normalization of a submit-answer response
(App.js 216-224): each field takes the first non-nullish spelling, else the
listed default (`false`, `0`, `""`, or the previous state value). -/
def normalizeAnswer (prev : PrevProgress) (result : Json) : NormResult :=
  { correct := jsBoolOf (nv (jsGet result "correct") <|> jsGet result "is_correct")
  , correctIndex :=
      (nv (jsGet result "correctIndex") <|> nv (jsGet result "correct_index")).getD (.num 0)
  , explanation := (nv (jsGet result "explanation")).getD (.str "")
  , score := (nv (jsGet result "score")).getD prev.score
  , questionNumber :=
      (nv (jsGet result "questionNumber") <|> nv (jsGet result "question_number")).getD
        prev.questionNumber
  , totalQuestions :=
      (nv (jsGet result "totalQuestions") <|> nv (jsGet result "total_questions")).getD
        prev.totalQuestions
  , gameOver := jsBoolOf (nv (jsGet result "gameOver") <|> jsGet result "game_over") }

/-- The question view held in component state
(`{id, prompt, choices}`). -/
structure QView where
  id : String
  prompt : String
  choices : List String
deriving Repr, DecidableEq

/-- JS `+` with an integer right operand, for the JSON value shapes the
score state can hold (a number in every flow the mock provider is reached
through; strings concatenate, `null`/booleans coerce to numbers, arrays and
objects coerce through their string form). -/
def jsPlus (a : Json) (k : Int) : Json :=
  match a with
  | .num n => .num (n + k)
  | .str s => .str (s ++ toString k)
  | .bool b => .num ((if b then 1 else 0) + k)
  | .null => .num k
  | v => .str (jsToString v ++ toString k)

/-- JS `a >= k` for the JSON value shapes the question-number state can
hold (a number in every modelled flow; `null` and booleans coerce to 0/1;
other shapes coerce to NaN and compare false). -/
def jsGEInt (a : Json) (k : Int) : Bool :=
  match a with
  | .num n => decide (k ≤ n)
  | .bool b => decide (k ≤ (if b then 1 else 0))
  | .null => decide (k ≤ 0)
  | _ => false

/-- `mockSubmitAnswer` as invoked from `handleSelectAnswer`, producing the
JSON object handed to the normalization, with the component state slots
(`score`, `questionNumber`) as `Json`. -/
def mockSubmitAnswerJ (score questionNumber : Json) (questionId : String)
    (selectedIdx : Nat) : Json :=
  let q := (MOCK_QUESTIONS.find? (fun x => x.id == questionId)).getD
    (MOCK_QUESTIONS.getD 0 default)
  let correct := selectedIdx == q.correctIndex
  let newScore := jsPlus score (if correct then 1 else 0)
  let isLast := jsGEInt questionNumber (MOCK_QUESTIONS.length : Int)
  .obj [ ("correct", .bool correct)
       , ("correctIndex", .num q.correctIndex)
       , ("explanation", .str q.explanation)
       , ("score", newScore)
       , ("questionNumber", questionNumber)
       , ("totalQuestions", .num (MOCK_QUESTIONS.length : Int))
       , ("gameOver", .bool isLast) ]

/-- The gameplay slice of the component state touched by
`handleSelectAnswer`.  The `loading` flag is not modelled: each handler
runs as one atomic step and `loading` is true only strictly inside it. -/
structure CtrlState where
  question : Option QView
  selectedIndex : Option Nat
  answerResult : Option NormResult
  score : Json
  questionNumber : Json
  totalQuestions : Json
  gameOver : Bool
  error : String
  usingMockBackend : Bool

/-- `handleSelectAnswer(idx)` up to the `await` (App.js 200-209): the
guard, then `setError("")` / `setSelectedIndex(idx)`.  This is the state
rendered while the submission is in flight. -/
def beginSelect (st : CtrlState) (idx : Nat) : CtrlState :=
  if st.question.isNone || st.selectedIndex.isSome || st.gameOver then st
  else { st with error := "", selectedIndex := some idx }

/-- The continuation of `handleSelectAnswer` after the `await`
(App.js 211-235), with the real-API call's outcome passed in as `backend`.
On a successful (or mock-substituted) result the normalized record is
stored; on a re-thrown error the selection is cleared and the message
shown (`e?.message || "Unable to submit answer"`). -/
def completeSelect (st : CtrlState) (idx : Nat) (backend : Except JsErr Json) :
    CtrlState :=
  match st.question with
  | none => st
  | some q =>
    match tryBackendOrMock backend (mockSubmitAnswerJ st.score st.questionNumber q.id idx) with
    | (.ok r, act) =>
      let n := normalizeAnswer ⟨st.score, st.questionNumber, st.totalQuestions⟩ r
      { st with answerResult := some n
              , score := n.score
              , totalQuestions := n.totalQuestions
              , gameOver := n.gameOver
              , usingMockBackend := st.usingMockBackend || act }
    | (.error e, _) =>
      { st with selectedIndex := none
              , error := if e.message == "" then "Unable to submit answer" else e.message }

/-- The whole of `handleSelectAnswer(idx)` (App.js 200-236) as one step:
guard, selection, awaited submission outcome, completion. -/
def handleSelectAnswer (st : CtrlState) (idx : Nat) (backend : Except JsErr Json) :
    CtrlState :=
  if st.question.isNone || st.selectedIndex.isSome || st.gameOver then st
  else completeSelect (beginSelect st idx) idx backend

/-- User actions on the gameplay view that are possible in mock mode:
start (the Start Game / Play Again button), selecting a choice, advancing
(Next Question / Finish Run), and the Restart button. -/
inductive MockAction where
  | start
  | select (idx : Nat)
  | next
  | restart
deriving Repr, DecidableEq

/-- The gameplay component state in pure mock mode, where every value the
responses carry is a concrete mock value (so scores and counters stay
natural numbers, and normalization of the canonical mock field names is
the identity — see `normalize_mockJson`). -/
structure MockGameState where
  gameStarted : Bool
  question : Option QView
  selectedIndex : Option Nat
  answerResult : Option MockAnswerResult
  score : Nat
  questionNumber : Nat
  totalQuestions : Nat
  gameOver : Bool
deriving Repr, DecidableEq

/-- The initial component state (App.js 66-73). -/
def initMockGameState : MockGameState :=
  { gameStarted := false, question := none, selectedIndex := none
  , answerResult := none, score := 0, questionNumber := 0
  , totalQuestions := MOCK_QUESTIONS.length, gameOver := false }

/-- One reaction of the controller in pure mock mode:
`handleStartGame` (via `mockStart` + `mockGetQuestion(1)`),
`handleSelectAnswer` (via `mockSubmitAnswer`), `handleNext`
(via `mockGetQuestion(questionNumber + 1)`), and the Restart button's
inline handler (App.js 497-504). -/
def mockStep (st : MockGameState) (a : MockAction) : MockGameState :=
  match a with
  | .start =>
    let v := mockGetQuestion 1
    { st with gameStarted := true
            , question := some { id := v.id, prompt := v.prompt, choices := v.choices }
            , selectedIndex := none, answerResult := none
            , score := 0, questionNumber := v.question_number.toNat
            , totalQuestions := v.total_questions, gameOver := false }
  | .select idx =>
    match st.question with
    | none => st
    | some q =>
      if st.selectedIndex.isSome || st.gameOver then st
      else
        let m := mockSubmitAnswer st.score st.questionNumber q.id idx
        { st with selectedIndex := some idx, answerResult := some m
                , score := m.score, totalQuestions := m.totalQuestions
                , gameOver := m.gameOver }
  | .next =>
    match st.answerResult with
    | none => st
    | some r =>
      if r.gameOver then { st with gameOver := true }
      else
        let v := mockGetQuestion ((st.questionNumber : Int) + 1)
        { st with question := some { id := v.id, prompt := v.prompt, choices := v.choices }
                , totalQuestions := v.total_questions
                , questionNumber := v.question_number.toNat
                , selectedIndex := none, answerResult := none, gameOver := false }
  | .restart =>
    { st with gameStarted := false, question := none, selectedIndex := none
            , answerResult := none, gameOver := false }

/-- One gameplay operation of a session, for the fallback model: the
real-API call's outcome and the value the mock provider would give for the
same logical operation. -/
structure CallSpec where
  backend : Except JsErr Json
  mock : Json

/-- A session's gameplay calls, each dispatched through `tryBackendOrMock`
(the controller wraps every gameplay call this way, regardless of whether
mock mode was activated earlier): the surfaced outcomes and the final
`usingMockBackend` flag. -/
def runSession (flag : Bool) : List CallSpec → List (Except JsErr Json) × Bool
  | [] => ([], flag)
  | c :: rest =>
    let (res, act) := tryBackendOrMock c.backend c.mock
    let (others, fin) := runSession (flag || act) rest
    (res :: others, fin)

/-- JS `s.split("\n")` on the character list of `s`: the (possibly empty)
chunks between newline characters; the empty string splits to `[""]`. -/
def splitLines (cs : List Char) : List String :=
  match cs with
  | [] => [""]
  | c :: rest =>
    let r := splitLines rest
    if c == '\n' then "" :: r
    else
      match r with
      | [] => [String.mk [c]]
      | s :: tail => String.mk (c :: s.data) :: tail

/-- Strip leading and trailing whitespace from a character list. -/
def trimChars (cs : List Char) : List Char :=
  ((cs.dropWhile Char.isWhitespace).reverse.dropWhile Char.isWhitespace).reverse

/-- JS `s.trim()` (whitespace at both ends removed). -/
def jsTrim (s : String) : String :=
  String.mk (trimChars s.data)

/-- `parseChoices()` of `AdminCreateForm` (App.js 639-644): split the
textarea on newlines, trim each line, keep the non-empty ones
(`filter(Boolean)`). -/
def parseChoices (choicesText : String) : List String :=
  ((splitLines choicesText.data).map jsTrim).filter (fun s => s != "")

/-- The body `adminCreateQuestion` would send (App.js 721-726):
`explanation.trim() || undefined` drops a blank explanation. -/
structure CreatePayload where
  prompt : String
  choices : List String
  correctIndex : Int
  explanation : Option String
deriving Repr, DecidableEq

/-- Outcome of pressing Create: a local validation message (no network
request), or the request payload handed to `onCreate`. -/
inductive CreateAction where
  | rejected (msg : String)
  | sent (payload : CreatePayload)
deriving Repr, DecidableEq

/-- The Create button's click handler (App.js 712-730): three local checks
in order, then the request.  The correct-index field is a JS number from a
numeric input, modelled as an integer. -/
def adminCreateSubmit (prompt choicesText : String) (correctIndex : Int)
    (explanation : String) : CreateAction :=
  let choices := parseChoices choicesText
  if jsTrim prompt == "" then .rejected "Prompt is required."
  else if choices.length < 2 then .rejected "Provide at least 2 choices."
  else if correctIndex < 0 || (choices.length : Int) ≤ correctIndex then
    .rejected "Correct index is out of range for the provided choices."
  else .sent { prompt := jsTrim prompt
             , choices := choices
             , correctIndex := correctIndex
             , explanation := if jsTrim explanation == "" then none
                              else some (jsTrim explanation) }

/-- Classification of a response body's text for `parseJsonSafe`
(client.js 24-32).  `JSON.parse` is a host primitive, so the body is
modelled by what it parses to: empty text, text that fails to parse, or
text that parses to a JSON value. -/
inductive Body where
  | empty
  | invalidJson (raw : String)
  | parsed (j : Json)

/-- `parseJsonSafe(resp)` (client.js 24-32): empty text gives `null`,
unparsable text is wrapped as `{detail: text}`, parsable text gives its
value. -/
def parseJsonSafe : Body → Option Json
  | .empty => none
  | .invalidJson raw => some (.obj [("detail", .str raw)])
  | .parsed j => some j

/-- `(d) => d?.msg || "Invalid request"` (client.js 20): the entry's `msg`
when present and truthy, else the fixed fallback.  The produced value is
later stringified by `join`. -/
def detailEntryMsg (d : Json) : Json :=
  match jsGet d "msg" with
  | some m => if jsTruthy m then m else .str "Invalid request"
  | none => .str "Invalid request"

/-- `toErrorMessage(payload)` (client.js 16-22). -/
def toErrorMessage (payload : Option Json) : String :=
  match payload with
  | none => "Request failed"
  | some p =>
    if jsFalsy p then "Request failed"
    else
      match p with
      | .str s => s
      | _ =>
        match jsGet p "detail" with
        | some (.str s) => s
        | some (.arr ds) => String.intercalate ", " (jsToStringList (ds.map detailEntryMsg))
        | _ => "Request failed"

/-- The user-facing message `apiRequest` attaches to a non-2xx response
(client.js 67-69): `toErrorMessage(payload) || "HTTP " + resp.status`. -/
def apiErrorMessage (status : Int) (body : Body) : String :=
  let m := toErrorMessage (parseJsonSafe body)
  if m == "" then "HTTP " ++ toString status else m

/-- The list-`detail` entry mapping as the specification words it: each
entry's `msg` value whenever the field is present, `"Invalid request"`
only when it is absent.  Written from the spec's words for comparison
with the code's `detailEntryMsg` (which also replaces a present-but-falsy
`msg`). -/
def specDetailEntryMsg (d : Json) : Json :=
  match jsGet d "msg" with
  | some m => m
  | none => .str "Invalid request"

/-- A concrete mid-game controller state: question `q1` displayed, nothing
selected yet. -/
def demoState : CtrlState :=
  { question := some { id := "q1", prompt := "P?", choices := ["a", "b"] }
  , selectedIndex := none, answerResult := none
  , score := .num 0, questionNumber := .num 1, totalQuestions := .num 3
  , gameOver := false, error := "", usingMockBackend := false }

/-- The invariant carried by every reachable pure-mock game state: the
question counter stays in range, the score is bounded, an unanswered
displayed question leaves room for exactly the points already earned, and
a stored answer result's game-over flag reflects the counter. -/
def MockInv (st : MockGameState) : Prop :=
  st.questionNumber ≤ MOCK_QUESTIONS.length ∧
  st.score ≤ MOCK_QUESTIONS.length ∧
  (st.question.isSome = true → 1 ≤ st.questionNumber) ∧
  (st.question.isSome = true → st.answerResult = none →
    st.score + 1 ≤ st.questionNumber) ∧
  (∀ r, st.answerResult = some r →
    st.score ≤ st.questionNumber ∧
    r.gameOver = decide (MOCK_QUESTIONS.length ≤ st.questionNumber)) ∧
  st.selectedIndex.isSome = st.answerResult.isSome

theorem MOCK_QUESTIONS_length : MOCK_QUESTIONS.length = 3 := rfl

/-- Pointwise evaluation of `clamp` into an if-chain (for `0 ≤ hi`). -/
theorem clamp_eval (n hi : Int) (h : 0 ≤ hi) :
    clamp n 0 hi = if n < 0 then 0 else if hi < n then hi else n := by
  simp only [clamp, max_def, min_def]
  split_ifs <;> omega

/-- C1: for every question of the fixed mock list and every prior score,
submitting its stored correct index yields `correct = true` and the score
incremented by one; submitting any other index yields `correct = false`
and the score unchanged. -/
theorem mock_submit_grading (q : MockQ) (hq : q ∈ MOCK_QUESTIONS)
    (s n idx : Nat) :
    ((mockSubmitAnswer s n q.id q.correctIndex).correct = true ∧
     (mockSubmitAnswer s n q.id q.correctIndex).score = s + 1) ∧
    (idx ≠ q.correctIndex →
      (mockSubmitAnswer s n q.id idx).correct = false ∧
      (mockSubmitAnswer s n q.id idx).score = s) := by
  simp only [MOCK_QUESTIONS, List.mem_cons, List.not_mem_nil, or_false] at hq
  rcases hq with h | h | h <;> subst h <;>
    refine ⟨⟨?_, ?_⟩, fun hne => ⟨?_, ?_⟩⟩ <;>
    simp_all [mockSubmitAnswer, MOCK_QUESTIONS, List.find?]

/-- Witness for C1 at question `q2`, prior score 5, wrong index 3. -/
theorem mock_submit_grading_witness :
    (mockSubmitAnswer 5 2 "q2" 1).correct = true ∧
    (mockSubmitAnswer 5 2 "q2" 1).score = 6 ∧
    (mockSubmitAnswer 5 2 "q2" 3).correct = false ∧
    (mockSubmitAnswer 5 2 "q2" 3).score = 5 := by
  have h := mock_submit_grading (MOCK_QUESTIONS.get ⟨1, by decide⟩) (by decide) 5 2 3
  exact ⟨h.1.1, h.1.2, (h.2 (by decide)).1, (h.2 (by decide)).2⟩

/-- C2 counterexample: at pre-submission question number 4 the mock
provider reports game over although 4 is not the total question count
(the code compares with `>=`, not equality). -/
theorem mock_submit_gameover_cex :
    (mockSubmitAnswer 0 4 "q1" 0).gameOver = true ∧ 4 ≠ MOCK_QUESTIONS.length := by
  refine ⟨rfl, by decide⟩

/-- C2 (amended): the mock game-over flag is true exactly when the
pre-submission question number is greater than or equal to the total mock
question count; for question numbers in the valid range `1..total` this
coincides with equality to the total. -/
theorem mock_submit_gameover (s n : Nat) (qid : String) (idx : Nat) :
    ((mockSubmitAnswer s n qid idx).gameOver = true ↔ MOCK_QUESTIONS.length ≤ n) ∧
    (1 ≤ n → n ≤ MOCK_QUESTIONS.length →
      ((mockSubmitAnswer s n qid idx).gameOver = true ↔ n = MOCK_QUESTIONS.length)) := by
  constructor
  · simp [mockSubmitAnswer]
  · intro h1 h2
    simp only [mockSubmitAnswer, decide_eq_true_eq]
    omega

/-- Witness for C2's amended theorem at question number 3. -/
theorem mock_submit_gameover_witness :
    (mockSubmitAnswer 0 3 "q1" 0).gameOver = true :=
  ((mock_submit_gameover 0 3 "q1" 0).2 (by decide) (by decide)).mpr rfl

/-- C6: for a position outside `[1, 3]` the mock question lookup behaves
as at the nearest valid position (1 from below, 3 from above): the whole
result coincides with the in-range call, the reported question number is
the clamped position, and the reported total is the mock list length. -/
theorem mock_get_question_clamps (n : Int) (h : n < 1 ∨ 3 < n) :
    mockGetQuestion n = mockGetQuestion (if n < 1 then 1 else 3) ∧
    (mockGetQuestion n).question_number = (if n < 1 then (1 : Int) else 3) ∧
    (mockGetQuestion n).total_questions = MOCK_QUESTIONS.length := by
  have hkey : ∀ m : Int, m < 1 ∨ 3 < m → mockGetQuestion m =
      mockGetQuestion (if m < 1 then 1 else 3) ∧
      (mockGetQuestion m).question_number = (if m < 1 then (1 : Int) else 3) := by
    intro m hm
    rcases hm with hm | hm
    · rw [if_pos hm]
      by_cases hz : m = 0
      · subst hz; exact ⟨by decide, by decide⟩
      · have hne : (m == 0) = false := by simp [hz]
        have hcl : clamp (m - 1) 0 ((MOCK_QUESTIONS.length : Int) - 1) = 0 := by
          rw [clamp_eval _ _ (by decide)]
          simp only [MOCK_QUESTIONS_length]
          split_ifs <;> omega
        constructor
        · simp only [mockGetQuestion, hne, Bool.false_eq_true, if_false, hcl]
          rfl
        · simp only [mockGetQuestion, hne, Bool.false_eq_true, if_false, hcl]
          rfl
    · rw [if_neg (show ¬m < 1 by omega)]
      have hne : (m == 0) = false := by simp; omega
      have hcl : clamp (m - 1) 0 ((MOCK_QUESTIONS.length : Int) - 1) = 2 := by
        rw [clamp_eval _ _ (by decide)]
        simp only [MOCK_QUESTIONS_length]
        split_ifs <;> omega
      constructor
      · simp only [mockGetQuestion, hne, Bool.false_eq_true, if_false, hcl]
        rfl
      · simp only [mockGetQuestion, hne, Bool.false_eq_true, if_false, hcl]
        rfl
  exact ⟨(hkey n h).1, (hkey n h).2, rfl⟩

/-- Witness for C6 at positions -2 (below range) and 9 (above range). -/
theorem mock_get_question_clamps_witness :
    mockGetQuestion (-2) = mockGetQuestion 1 ∧
    (mockGetQuestion (-2)).question_number = 1 ∧
    mockGetQuestion 9 = mockGetQuestion 3 ∧
    (mockGetQuestion 9).question_number = 3 ∧
    (mockGetQuestion 9).total_questions = 3 := by
  have hlow := mock_get_question_clamps (-2) (Or.inl (by decide))
  have hhigh := mock_get_question_clamps 9 (Or.inr (by decide))
  refine ⟨?_, ?_, ?_, ?_, ?_⟩
  · simpa using hlow.1
  · simpa using hlow.2.1
  · simpa using hhigh.1
  · simpa using hhigh.2.1
  · simpa using hhigh.2.2

/-- The boolean endpoint-missing classifier, spelled out as the
disjunction of its five conditions. -/
theorem looksLike_iff (e : JsErr) :
    looksLikeMissingEndpoint e = true ↔
      (e.status = some 404 ∨ e.status = some 405 ∨
       containsIC e.message "Failed to fetch" = true ∨
       containsIC e.message "NetworkError" = true ∨
       containsIC e.message "CORS" = true) := by
  simp [looksLikeMissingEndpoint, or_assoc]

/-- C3: an error from a real-API call is replaced by the mock result (with
mock-mode activation) exactly when its HTTP status is 404 or 405 or its
message matches the `Failed to fetch` / `NetworkError` / `CORS` patterns;
every other error is re-thrown unchanged, with no activation. -/
theorem fallback_classification (e : JsErr) (mock : Json) :
    (tryBackendOrMock (Except.error e) mock = (Except.ok mock, true) ↔
      (e.status = some 404 ∨ e.status = some 405 ∨
       containsIC e.message "Failed to fetch" = true ∨
       containsIC e.message "NetworkError" = true ∨
       containsIC e.message "CORS" = true)) ∧
    (¬(e.status = some 404 ∨ e.status = some 405 ∨
       containsIC e.message "Failed to fetch" = true ∨
       containsIC e.message "NetworkError" = true ∨
       containsIC e.message "CORS" = true) →
      tryBackendOrMock (Except.error e) mock = (Except.error e, false)) := by
  by_cases h : looksLikeMissingEndpoint e = true
  · constructor
    · exact iff_of_true (by simp [tryBackendOrMock, h]) ((looksLike_iff e).mp h)
    · intro hn
      exact absurd ((looksLike_iff e).mp h) hn
  · have h' : looksLikeMissingEndpoint e = false := by
      revert h
      cases looksLikeMissingEndpoint e <;> simp
    constructor
    · apply iff_of_false
      · simp [tryBackendOrMock, h']
      · intro hc
        exact h ((looksLike_iff e).mpr hc)
    · intro _
      simp [tryBackendOrMock, h']

/-- Witness for C3: an HTTP 500 error is not classified; it is re-thrown
unchanged and mock mode is not activated. -/
theorem fallback_classification_witness :
    tryBackendOrMock (Except.error ⟨some 500, "Internal Server Error"⟩) (Json.str "mock") =
      (Except.error ⟨some 500, "Internal Server Error"⟩, false) :=
  (fallback_classification ⟨some 500, "Internal Server Error"⟩ (Json.str "mock")).2
    (by decide)

/-- C4 counterexample: the first get-question call fails with HTTP 404
(the mock answers it and the flag latches), but a later call whose
real-API attempt succeeds is answered by the backend value, not the mock
provider — subsequent operations do not all use mock data. -/
theorem fallback_not_latched_cex :
    (runSession false
      [ ⟨Except.error ⟨some 404, "Not Found"⟩, Json.str "mockQ"⟩
      , ⟨Except.ok (Json.str "backendQ"), Json.str "mockQ"⟩ ]).1 =
      [Except.ok (Json.str "mockQ"), Except.ok (Json.str "backendQ")] ∧
    Json.str "backendQ" ≠ Json.str "mockQ" ∧
    (runSession false
      [ ⟨Except.error ⟨some 404, "Not Found"⟩, Json.str "mockQ"⟩
      , ⟨Except.ok (Json.str "backendQ"), Json.str "mockQ"⟩ ]).2 = true := by
  refine ⟨rfl, ?_, rfl⟩
  intro hcon
  injection hcon with h'
  exact absurd h' (by decide)

/-- C4 (amended): mock-mode activation only latches the informational
flag; every gameplay call still tries the real API first.  A call is
answered by the mock provider exactly when its own real-API attempt fails
with a classified error (and then no error surfaces); a call whose
real-API attempt succeeds uses the backend result. -/
theorem fallback_per_call (flag : Bool) (calls : List CallSpec) :
    (runSession flag calls).1 =
      calls.map (fun c => (tryBackendOrMock c.backend c.mock).1) ∧
    (runSession flag calls).2 =
      (flag || calls.any (fun c =>
        match c.backend with
        | .error e => looksLikeMissingEndpoint e
        | .ok _ => false)) ∧
    (∀ c ∈ calls, ∀ e, c.backend = .error e → looksLikeMissingEndpoint e = true →
      (tryBackendOrMock c.backend c.mock).1 = .ok c.mock) ∧
    (∀ c ∈ calls, ∀ v, c.backend = .ok v →
      (tryBackendOrMock c.backend c.mock).1 = .ok v) := by
  refine ⟨?_, ?_, ?_, ?_⟩
  · induction calls generalizing flag with
    | nil => rfl
    | cons c rest ih =>
      simp only [runSession, List.map]
      rw [ih]
  · induction calls generalizing flag with
    | nil => simp [runSession]
    | cons c rest ih =>
      simp only [runSession, List.any_cons]
      rw [ih]
      cases hb : c.backend with
      | ok v => simp [tryBackendOrMock]
      | error e =>
        simp only [tryBackendOrMock]
        cases hl : looksLikeMissingEndpoint e <;> simp [hl, Bool.or_assoc]
  · intro c _ e hb hl
    rw [hb]
    simp [tryBackendOrMock, hl]
  · intro c _ v hb
    rw [hb]
    rfl

/-- Witness for C4's amended theorem: a single call failing with a 404 is
answered by the mock value. -/
theorem fallback_per_call_witness :
    (tryBackendOrMock (Except.error ⟨some 404, "Not Found"⟩) (Json.str "mq")).1 =
      Except.ok (Json.str "mq") := by
  have h := (fallback_per_call false
    [⟨Except.error ⟨some 404, "Not Found"⟩, Json.str "mq"⟩]).2.2.1
    ⟨Except.error ⟨some 404, "Not Found"⟩, Json.str "mq"⟩
    (List.mem_singleton.mpr rfl) ⟨some 404, "Not Found"⟩ rfl (by decide)
  exact h

/-- C5 counterexample: with question `q1` displayed and nothing selected,
selecting choice 0 stores the selection, but when the submission fails
with a non-classified error (HTTP 500) the stored selection is cleared to
`none` — before any new question is loaded (the displayed question is
unchanged). -/
theorem selection_cleared_cex :
    (beginSelect demoState 0).selectedIndex = some 0 ∧
    (completeSelect (beginSelect demoState 0) 0
        (Except.error ⟨some 500, "Server exploded"⟩)).selectedIndex = none ∧
    (completeSelect (beginSelect demoState 0) 0
        (Except.error ⟨some 500, "Server exploded"⟩)).question = demoState.question ∧
    (completeSelect (beginSelect demoState 0) 0
        (Except.error ⟨some 500, "Server exploded"⟩)).error = "Server exploded" := by
  refine ⟨rfl, rfl, rfl, rfl⟩

/-- C5 (amended): a stored selection is never overwritten with a different
value (the guard ignores further selections, leaving the state untouched),
and it survives the submission whenever the submission succeeds or is
answered by the mock fallback; only a submission failing with a
non-classified error clears the selection (unlocking the choices for
retry), and that path loads no new question. -/
theorem selection_locked (st : CtrlState) (idx : Nat)
    (backend : Except JsErr Json) :
    (∀ j, st.selectedIndex = some j →
      handleSelectAnswer st idx backend = st) ∧
    (st.question.isSome = true → st.selectedIndex = none → st.gameOver = false →
      (∀ v, backend = .ok v →
        (handleSelectAnswer st idx backend).selectedIndex = some idx) ∧
      (∀ e, backend = .error e → looksLikeMissingEndpoint e = true →
        (handleSelectAnswer st idx backend).selectedIndex = some idx) ∧
      (∀ e, backend = .error e → looksLikeMissingEndpoint e = false →
        (handleSelectAnswer st idx backend).selectedIndex = none ∧
        (handleSelectAnswer st idx backend).question = st.question)) := by
  constructor
  · intro j hj
    have hsome : st.selectedIndex.isSome = true := by rw [hj]; rfl
    simp [handleSelectAnswer, hsome]
  · intro hq hsel hgo
    cases hqv : st.question with
    | none => rw [hqv] at hq; cases hq
    | some q =>
      refine ⟨?_, ?_, ?_⟩
      · intro v hv
        subst hv
        simp [handleSelectAnswer, beginSelect, completeSelect, hqv, hsel, hgo,
          tryBackendOrMock]
      · intro e he hl
        subst he
        simp [handleSelectAnswer, beginSelect, completeSelect, hqv, hsel, hgo,
          tryBackendOrMock, hl]
      · intro e he hl
        subst he
        constructor <;>
          simp [handleSelectAnswer, beginSelect, completeSelect, hqv, hsel, hgo,
            tryBackendOrMock, hl]

/-- Witness for C5's amended theorem: at the demo state a successful
backend submission keeps the selection, and a repeated selection in the
answered state changes nothing. -/
theorem selection_locked_witness :
    (handleSelectAnswer demoState 1 (Except.ok (Json.obj []))).selectedIndex = some 1 ∧
    handleSelectAnswer { demoState with selectedIndex := some 0 } 1
        (Except.ok (Json.obj [])) = { demoState with selectedIndex := some 0 } := by
  constructor
  · exact ((selection_locked demoState 1 (Except.ok (Json.obj []))).2
      rfl rfl rfl).1 (Json.obj []) rfl
  · exact (selection_locked { demoState with selectedIndex := some 0 } 1
      (Except.ok (Json.obj []))).1 0 rfl

theorem mockGetQuestion_one_toNat : (mockGetQuestion 1).question_number.toNat = 1 := by
  decide

/-- In-range positions (1..3) are reported back unchanged by the mock
question lookup. -/
theorem mockGetQuestion_inRange (k : Nat) (h1 : 1 ≤ k) (h2 : k ≤ 3) :
    (mockGetQuestion (k : Int)).question_number = (k : Int) := by
  interval_cases k <;> decide

theorem mockSubmitAnswer_score_bounds (s n : Nat) (qid : String) (idx : Nat) :
    s ≤ (mockSubmitAnswer s n qid idx).score ∧
    (mockSubmitAnswer s n qid idx).score ≤ s + 1 := by
  simp only [mockSubmitAnswer]
  split_ifs <;> omega

theorem mockSubmitAnswer_questionNumber (s n : Nat) (qid : String) (idx : Nat) :
    (mockSubmitAnswer s n qid idx).questionNumber = n := rfl

theorem mockSubmitAnswer_isLast (s n : Nat) (qid : String) (idx : Nat) :
    (mockSubmitAnswer s n qid idx).gameOver = decide (MOCK_QUESTIONS.length ≤ n) := rfl

theorem initMockGameState_inv : MockInv initMockGameState := by
  refine ⟨by decide, by decide, ?_, ?_, ?_, rfl⟩ <;>
    simp [initMockGameState]

theorem mockStep_inv (st : MockGameState) (a : MockAction) (h : MockInv st) :
    MockInv (mockStep st a) := by
  obtain ⟨h1, h2, h3, h4, h5, h6⟩ := h
  cases a with
  | start =>
    refine ⟨?_, ?_, ?_, ?_, ?_, ?_⟩ <;>
      simp [mockStep, mockGetQuestion_one_toNat, MOCK_QUESTIONS_length]
  | select idx =>
    cases hqv : st.question with
    | none =>
      simp only [mockStep, hqv]
      exact ⟨h1, h2, h3, h4, h5, h6⟩
    | some q =>
      by_cases hg : (st.selectedIndex.isSome || st.gameOver) = true
      · simp only [mockStep, hqv, hg, if_true]
        exact ⟨h1, h2, h3, h4, h5, h6⟩
      · have hsel : st.selectedIndex = none := by
          cases hs : st.selectedIndex
          · rfl
          · rw [hs] at hg
            simp at hg
        have har : st.answerResult = none := by
          cases ha : st.answerResult
          · rfl
          · rw [hsel, ha] at h6
            simp at h6
        have hq1 : 1 ≤ st.questionNumber := h3 (by rw [hqv]; rfl)
        have hsc : st.score + 1 ≤ st.questionNumber := h4 (by rw [hqv]; rfl) har
        obtain ⟨hm1, hm2⟩ :=
          mockSubmitAnswer_score_bounds st.score st.questionNumber q.id idx
        simp only [mockStep, hqv, hg, if_false, Bool.false_eq_true]
        refine ⟨h1, by dsimp only; omega, fun _ => hq1, ?_, ?_, rfl⟩
        · intro _ hcon
          dsimp only at hcon
          cases hcon
        · intro r hr
          dsimp only at hr ⊢
          injection hr with hr
          subst hr
          exact ⟨by omega, mockSubmitAnswer_isLast _ _ _ _⟩
  | next =>
    cases har : st.answerResult with
    | none =>
      simp only [mockStep, har]
      exact ⟨h1, h2, h3, h4, h5, h6⟩
    | some r =>
      obtain ⟨hrs, hrg⟩ := h5 r har
      by_cases hgo : r.gameOver = true
      · simp only [mockStep, har, hgo, if_true]
        rw [har] at h6
        refine ⟨h1, h2, h3, ?_, ?_, h6⟩
        · intro _ hcon
          dsimp only at hcon
          cases hcon
        · intro r' hr'
          dsimp only at hr' ⊢
          injection hr' with hr'
          subst hr'
          exact ⟨hrs, hrg⟩
      · have hgo' : r.gameOver = false := by simpa using hgo
        have hq2 : st.questionNumber ≤ 2 := by
          rw [hgo'] at hrg
          have hnot := of_decide_eq_false hrg.symm
          rw [MOCK_QUESTIONS_length] at hnot
          omega
        have hqn := mockGetQuestion_inRange (st.questionNumber + 1) (by omega) (by omega)
        simp only [mockStep, har, hgo', if_false, Bool.false_eq_true]
        have hcast : ((st.questionNumber : Int) + 1) = ((st.questionNumber + 1 : Nat) : Int) := by
          push_cast
          ring
        rw [hcast, hqn]
        rw [MOCK_QUESTIONS_length] at h2
        refine ⟨by dsimp only; simp only [MOCK_QUESTIONS_length]; omega,
          by dsimp only; simp only [MOCK_QUESTIONS_length]; omega,
          fun _ => by dsimp only; omega,
          fun _ _ => by dsimp only; omega, ?_, rfl⟩
        intro r' hr'
        dsimp only at hr'
        cases hr'
  | restart =>
    refine ⟨h1, h2, ?_, ?_, ?_, rfl⟩
    · intro hcon
      simp [mockStep] at hcon
    · intro hcon
      simp [mockStep] at hcon
    · intro r' hr'
      simp [mockStep] at hr'

/-- C7: in pure mock mode, starting from the initial component state,
after any sequence of user actions the running score never exceeds the
total mock question count: each question contributes at most one point. -/
theorem mock_mode_score_bounded (acts : List MockAction) :
    (acts.foldl mockStep initMockGameState).score ≤ MOCK_QUESTIONS.length := by
  have key : ∀ (l : List MockAction) (st : MockGameState), MockInv st →
      MockInv (l.foldl mockStep st) := by
    intro l
    induction l with
    | nil => exact fun st hst => hst
    | cons a rest ih => exact fun st hst => ih _ (mockStep_inv st a hst)
  exact (key acts initMockGameState initMockGameState_inv).2.1


/-- C8: each failing local check rejects the create form with its message
and sends no request (the rejection constructor carries no payload to
`onCreate`); the request is sent — with trimmed prompt, parsed choices and
optional trimmed explanation — exactly when all three checks pass. -/
theorem admin_create_validation (prompt choicesText : String) (ci : Int)
    (ex : String) :
    (jsTrim prompt = "" →
      adminCreateSubmit prompt choicesText ci ex =
        .rejected "Prompt is required.") ∧
    (jsTrim prompt ≠ "" → (parseChoices choicesText).length < 2 →
      adminCreateSubmit prompt choicesText ci ex =
        .rejected "Provide at least 2 choices.") ∧
    (jsTrim prompt ≠ "" → 2 ≤ (parseChoices choicesText).length →
      (ci < 0 ∨ ((parseChoices choicesText).length : Int) ≤ ci) →
      adminCreateSubmit prompt choicesText ci ex =
        .rejected "Correct index is out of range for the provided choices.") ∧
    (jsTrim prompt ≠ "" → 2 ≤ (parseChoices choicesText).length →
      0 ≤ ci → ci < ((parseChoices choicesText).length : Int) →
      adminCreateSubmit prompt choicesText ci ex =
        .sent { prompt := jsTrim prompt
              , choices := parseChoices choicesText
              , correctIndex := ci
              , explanation := if jsTrim ex = "" then none
                               else some (jsTrim ex) }) ∧
    (∀ p, adminCreateSubmit prompt choicesText ci ex = .sent p →
      jsTrim prompt ≠ "" ∧ 2 ≤ (parseChoices choicesText).length ∧
      0 ≤ ci ∧ ci < ((parseChoices choicesText).length : Int)) := by
  refine ⟨?_, ?_, ?_, ?_, ?_⟩
  · intro h
    simp [adminCreateSubmit, h]
  · intro h1 h2
    simp [adminCreateSubmit, h1, h2]
  · intro h1 h2 h3
    have h2' : ¬(parseChoices choicesText).length < 2 := by omega
    rcases h3 with h3 | h3
    · simp [adminCreateSubmit, h1, h2', h3]
    · simp [adminCreateSubmit, h1, h2', h3]
  · intro h1 h2 h3 h4
    have h2' : ¬(parseChoices choicesText).length < 2 := by omega
    have h3' : ¬ci < 0 := by omega
    have h4' : ¬((parseChoices choicesText).length : Int) ≤ ci := by omega
    simp [adminCreateSubmit, h1, h2', h3', h4']
  · intro p hp
    simp only [adminCreateSubmit] at hp
    by_cases c1 : jsTrim prompt = ""
    · rw [if_pos (show (jsTrim prompt == "") = true from beq_iff_eq.mpr c1)] at hp
      cases hp
    · rw [if_neg (show ¬(jsTrim prompt == "") = true by simpa using c1)] at hp
      by_cases c2 : (parseChoices choicesText).length < 2
      · rw [if_pos c2] at hp
        cases hp
      · rw [if_neg c2] at hp
        by_cases c3 : (decide (ci < 0) ||
            decide (((parseChoices choicesText).length : Int) ≤ ci)) = true
        · rw [if_pos c3] at hp
          cases hp
        · rw [if_neg c3] at hp
          simp only [Bool.or_eq_true, decide_eq_true_eq, not_or] at c3
          exact ⟨c1, by omega, by omega, by omega⟩

/-- Witness for C8: a valid form is sent, a blank prompt is rejected. -/
theorem admin_create_validation_witness :
    adminCreateSubmit "Why?" "A\nB" 1 "" =
      CreateAction.sent
        { prompt := "Why?", choices := ["A", "B"], correctIndex := 1
        , explanation := none } ∧
    adminCreateSubmit "   " "A\nB" 0 "" =
      CreateAction.rejected "Prompt is required." := by
  constructor
  · have h := (admin_create_validation "Why?" "A\nB" 1 "").2.2.2.1
      (by decide) (by decide) (by decide) (by decide)
    rw [h]
    rfl
  · exact (admin_create_validation "   " "A\nB" 0 "").1 (by decide)

/-- C9 counterexample: for the body `{"detail":[{"msg":""}]}` the claimed
mapping — each entry's `msg`, with `"Invalid request"` only when the field
is absent — yields the empty message, but the code's
`d?.msg || "Invalid request"` also replaces a present-but-falsy `msg` and
yields `"Invalid request"`. -/
theorem error_message_falsy_msg_cex :
    toErrorMessage (some (.obj [("detail", .arr [.obj [("msg", .str "")]])])) =
      "Invalid request" ∧
    String.intercalate ", "
      (jsToStringList ([Json.obj [("msg", Json.str "")]].map specDetailEntryMsg)) =
      "" ∧
    ("Invalid request" : String) ≠ "" := by
  refine ⟨rfl, rfl, by decide⟩

/-- C9 (amended): the user-facing message is derived from the parsed body
as follows — a string `detail` is used as-is; a list `detail` maps each
entry through `d?.msg || "Invalid request"` (the fallback also applies
when `msg` is present but falsy, e.g. the empty string) joined with
`", "`; a non-JSON body is wrapped as `{detail: raw}` so its raw text
becomes the message; an empty body parses to `null` and yields the
generic `"Request failed"` message. -/
theorem error_message_rules (status : Int) :
    (∀ fields s, jsGet (.obj fields) "detail" = some (.str s) →
      toErrorMessage (some (.obj fields)) = s) ∧
    (∀ fields ds, jsGet (.obj fields) "detail" = some (.arr ds) →
      toErrorMessage (some (.obj fields)) =
        String.intercalate ", " (jsToStringList (ds.map detailEntryMsg))) ∧
    (∀ raw, raw ≠ "" → apiErrorMessage status (.invalidJson raw) = raw) ∧
    (parseJsonSafe .empty = none ∧
      apiErrorMessage status .empty = "Request failed") := by
  refine ⟨?_, ?_, ?_, rfl, rfl⟩
  · intro fields s h
    simp [toErrorMessage, jsFalsy, h]
  · intro fields ds h
    simp [toErrorMessage, jsFalsy, h]
  · intro raw hraw
    simp [apiErrorMessage, parseJsonSafe, toErrorMessage, jsGet, jsFalsy, hraw]

/-- Witness for C9's amended theorem: a string detail, a two-entry list
detail, a non-JSON body, and an empty body. -/
theorem error_message_rules_witness :
    toErrorMessage (some (.obj [("detail", .str "Not found")])) = "Not found" ∧
    toErrorMessage (some (.obj [("detail",
        .arr [.obj [("msg", .str "bad id")], .obj []])])) =
      "bad id, Invalid request" ∧
    apiErrorMessage 502 (.invalidJson "Bad Gateway") = "Bad Gateway" ∧
    apiErrorMessage 502 .empty = "Request failed" := by
  refine ⟨?_, ?_, ?_, (error_message_rules 502).2.2.2.2⟩
  · exact (error_message_rules 502).1 [("detail", .str "Not found")] "Not found" rfl
  · exact (error_message_rules 502).2.1 [("detail",
      .arr [.obj [("msg", .str "bad id")], .obj []])]
      [.obj [("msg", .str "bad id")], .obj []] rfl
  · exact (error_message_rules 502).2.2.1 "Bad Gateway" (by decide)

/-- C10: when a submit-answer response object carries none of the
recognized field spellings, normalization falls back to the fixed
defaults: `correct = false`, `correctIndex = 0`, empty explanation,
previous score, previous question number and total, `gameOver = false`. -/
theorem normalize_defaults (prev : PrevProgress) (r : Json)
    (h1 : jsGet r "correct" = none) (h2 : jsGet r "is_correct" = none)
    (h3 : jsGet r "correctIndex" = none) (h4 : jsGet r "correct_index" = none)
    (h5 : jsGet r "explanation" = none) (h6 : jsGet r "score" = none)
    (h7 : jsGet r "questionNumber" = none) (h8 : jsGet r "question_number" = none)
    (h9 : jsGet r "totalQuestions" = none) (h10 : jsGet r "total_questions" = none)
    (h11 : jsGet r "gameOver" = none) (h12 : jsGet r "game_over" = none) :
    normalizeAnswer prev r =
      { correct := false, correctIndex := .num 0, explanation := .str ""
      , score := prev.score, questionNumber := prev.questionNumber
      , totalQuestions := prev.totalQuestions, gameOver := false } := by
  simp [normalizeAnswer, h1, h2, h3, h4, h5, h6, h7, h8, h9, h10, h11, h12,
    nv, jsBoolOf]

/-- Witness for C10 at the empty response object and a concrete previous
state. -/
theorem normalize_defaults_witness :
    normalizeAnswer ⟨.num 7, .num 2, .num 9⟩ (.obj []) =
      { correct := false, correctIndex := .num 0, explanation := .str ""
      , score := .num 7, questionNumber := .num 2
      , totalQuestions := .num 9, gameOver := false } :=
  normalize_defaults ⟨.num 7, .num 2, .num 9⟩ (.obj [])
    rfl rfl rfl rfl rfl rfl rfl rfl rfl rfl rfl rfl

theorem jsGEInt_natCast (a k : Nat) :
    jsGEInt (.num (a : Int)) (k : Int) = decide (k ≤ a) := by
  simp only [jsGEInt]
  rw [decide_eq_decide]
  exact_mod_cast Iff.rfl

/-- The tolerant normalization is the identity on the mock provider's
result object (all canonical field names present): submitting through the
`Json` pipeline agrees field-by-field with `mockSubmitAnswer` on natural
number state.  This backs the natural-number mock game machine. -/
theorem normalize_mockJson (prev : PrevProgress) (s n : Nat) (qid : String)
    (idx : Nat) :
    normalizeAnswer prev (mockSubmitAnswerJ (.num (s : Int)) (.num (n : Int)) qid idx) =
      { correct := (mockSubmitAnswer s n qid idx).correct
      , correctIndex := .num ((mockSubmitAnswer s n qid idx).correctIndex : Int)
      , explanation := .str (mockSubmitAnswer s n qid idx).explanation
      , score := .num ((mockSubmitAnswer s n qid idx).score : Int)
      , questionNumber := .num ((mockSubmitAnswer s n qid idx).questionNumber : Int)
      , totalQuestions := .num ((mockSubmitAnswer s n qid idx).totalQuestions : Int)
      , gameOver := (mockSubmitAnswer s n qid idx).gameOver } := by
  have hgen : ∀ (q' : MockQ) (c g : Bool),
      normalizeAnswer prev (.obj
        [ ("correct", .bool c)
        , ("correctIndex", .num (q'.correctIndex : Int))
        , ("explanation", .str q'.explanation)
        , ("score", jsPlus (.num (s : Int)) (if c then 1 else 0))
        , ("questionNumber", .num (n : Int))
        , ("totalQuestions", .num (MOCK_QUESTIONS.length : Int))
        , ("gameOver", .bool g) ]) =
      { correct := c
      , correctIndex := .num (q'.correctIndex : Int)
      , explanation := .str q'.explanation
      , score := .num ((s : Int) + if c then 1 else 0)
      , questionNumber := .num (n : Int)
      , totalQuestions := .num (MOCK_QUESTIONS.length : Int)
      , gameOver := g } := by
    intro q' c g
    cases c <;> cases g <;> rfl
  simp only [mockSubmitAnswerJ, mockSubmitAnswer]
  rw [hgen]
  cases hc : (idx ==
      ((MOCK_QUESTIONS.find? fun x => x.id == qid).getD
        (MOCK_QUESTIONS.getD 0 default)).correctIndex) <;>
    simp only [NormResult.mk.injEq, jsGEInt_natCast, Json.num.injEq, if_true,
      if_false, ite_true, ite_false, true_and, and_true, Bool.false_eq_true,
      Bool.true_eq_false, and_self] <;>
    push_cast <;>
    ring
